import Mathlib

/-!
Shallow embedding of the resource-attachment control plane of hcsshim:
the `Share` operation of `internal/uvm/share.go`, the compute-agent ttrpc
service of `internal/uvm/computeagent.go`, the layer-descriptor conversion
of `internal/wclayer`, and the workload-container spec setup of the guest
(`hcsv2`).  External collaborators (HCS, HNS, the guest channel, the
filesystem, syscalls) are modelled as oracle functions supplied in an
environment record; the control flow, branching and error propagation of
the embedded functions follow the Go source line by line.  Go errors are
modelled by their message strings; a fallible call returns `Option String`
(the error, `none` on success) or `Except String α`.
-/

namespace HcsShim

/-! ### Fragments of the Go standard library used by the embedded code -/

/-- Go `strings.HasPrefix s pre`. -/
def hasPref (s pre : String) : Bool :=
  pre.toList.isPrefixOf s.toList

/-- Go `strings.TrimPrefix s pre`. -/
def trimPref (s pre : String) : String :=
  if hasPref s pre then String.mk (s.toList.drop pre.toList.length) else s

/-- Go `strings.Contains s sub`: `sub` occurs contiguously inside `s`. -/
def goContains (s sub : String) : Bool :=
  (List.range (s.toList.length + 1)).any fun i => sub.toList.isPrefixOf (s.toList.drop i)

/-- Go `errors.Wrapf(err, format, args...)` produces the message
`formatted ++ ": " ++ err.Error()`. -/
def wrapf (context errMsg : String) : String :=
  context ++ ": " ++ errMsg

/-- Go `%q` formatting of a name (escaping inside the name is not needed by
any claim and is not modelled). -/
def goQuote (s : String) : String :=
  "\"" ++ s ++ "\""

/-- Go `filepath.Split` on a Windows host: the path is split right after its
final path separator (`/` and `\` both separate on Windows); the first
component keeps the trailing separator.  Drive/UNC volume prefixes of
separator-free paths are not modelled; on every path that contains a
separator this agrees with Go. -/
def winSplit (p : String) : String × String :=
  let isSep : Char → Bool := fun c => c = '/' || c = '\\'
  let rev := p.toList.reverse
  let fileRev := rev.takeWhile (fun c => !isSep c)
  (String.mk (rev.drop fileRev.length).reverse, String.mk fileRev.reverse)

/-- One step of the lexical element processing inside Go `filepath.Clean`
(Unix rules): `stack` holds the output elements in reverse order. -/
def cleanStep (rooted : Bool) (stack : List String) (elem : String) : List String :=
  if elem = "" ∨ elem = "." then stack
  else if elem = ".." then
    match stack with
    | [] => if rooted then [] else [".."]
    | top :: rest => if top = ".." then ".." :: top :: rest else rest
  else elem :: stack

/-- Splitting a character list at `/` (the elements of a Unix path,
including empty ones), with an accumulator for the element being read. -/
def splitSlash : List Char → List Char → List (List Char)
  | [], acc => [acc.reverse]
  | c :: rest, acc =>
    if c = '/' then acc.reverse :: splitSlash rest []
    else splitSlash rest (c :: acc)

/-- Joining path elements with `/`. -/
def joinSlash : List String → String
  | [] => ""
  | [x] => x
  | x :: rest => x ++ "/" ++ joinSlash rest

/-- Go `filepath.Clean` with Unix separator rules (as used inside the Linux
guest by the `hcsv2` code). -/
def goCleanU (p : String) : String :=
  if p = "" then "."
  else
    let rooted := match p.toList with | '/' :: _ => true | _ => false
    let elems := (splitSlash p.toList []).map String.mk
    let stack := elems.foldl (cleanStep rooted) []
    let body := joinSlash stack.reverse
    if body = "" then (if rooted then "/" else ".")
    else if rooted then "/" ++ body else body

/-- Go `filepath.Join` on two elements with Unix rules: empty elements are
dropped, the rest are joined with `/` and the result cleaned. -/
def goJoinU (a b : String) : String :=
  if a = "" then (if b = "" then "" else goCleanU b)
  else if b = "" then goCleanU a
  else goCleanU (a ++ "/" ++ b)

/-- A cleaned path `p` lies within directory `dir` (path containment, not a
mere string comparison): `p` is `dir` itself or extends it at a path
separator. -/
def pathWithinDir (dir p : String) : Bool :=
  p = dir || hasPref p (dir ++ "/")

/-! ### `internal/uvm/share.go`: the Share operation

`uvm.Share(ctx, reqHostPath, reqUVMPath, readOnly)` branches on
`uvm.OS() == "windows"`.  The HCS-backed methods it calls (`AddVSMB`,
`GetVSMBUvmPath`, `GuestRequest`, `os.Stat`, `AddPlan9`) are external
collaborators, supplied as oracles in `ShareEnv`; the host-side effects of
the call (share allocations, releases, guest requests) are recorded as an
event trace so that the rollback and mechanism-selection guarantees can be
stated over what the call did. -/

/-- `guestrequest.ResourceType`; only the constant used by `Share` is
needed. -/
inductive GuestResourceKind where
  | mappedDirectory
deriving DecidableEq

/-- `requesttype.RequestType`. -/
inductive RequestKind where
  | add
  | remove
deriving DecidableEq

/-- `hcsschema.MappedDirectory` (the fields `Share` sets). -/
structure MappedDirectory where
  HostPath : String
  ContainerPath : String
  ReadOnly : Bool
deriving DecidableEq

/-- `guestrequest.GuestRequest` as built by `Share`. -/
structure GuestRequest where
  ResourceType : GuestResourceKind
  RequestType : RequestKind
  Settings : MappedDirectory
deriving DecidableEq

/-- The result of Go `os.Stat` that `Share` consumes: only `IsDir()`. -/
structure GoFileInfo where
  isDir : Bool
deriving DecidableEq

/-- The host-side effects a `Share` call performs, in order.  An allocation
event is recorded when the corresponding HCS call succeeds (a failed
`AddVSMB`/`AddPlan9` creates nothing); a `guestRequest` event is recorded
whenever the request is sent, whether or not the guest reports an error; a
release event is recorded exactly when the deferred conditional `Release`
of the source actually fires (see `Share` on which error paths that is). -/
inductive ShareEvent where
  | addVSMB (hostPath : String) (readOnly : Bool)
  | releaseVSMB
  | guestRequest (req : GuestRequest)
  | addPlan9 (hostPath uvmPath : String) (readOnly restrictAccess : Bool)
      (allowedNames : List String)
  | releasePlan9
deriving DecidableEq

/-- The external collaborators of `Share`, as result oracles keyed by the
arguments the source passes them.  The `Bool` argument of `addVSMB` stands
for the options value `uvm.DefaultVSMBOptions(readOnly)`, which is a pure
function of `readOnly`. -/
structure ShareEnv where
  addVSMB : String → Bool → Option String
  getVSMBUvmPath : String → Bool → Except String String
  guestRequest : GuestRequest → Option String
  stat : String → Except String GoFileInfo
  addPlan9 : String → String → Bool → Bool → List String → Option String

/-- `uvm.OS()` is the only UtilityVM attribute `Share` consults. -/
structure UtilityVM where
  os : String

/-- `(*UtilityVM).Share` of `internal/uvm/share.go`, returning the Go error
and the trace of host/guest effects.  The windows branch's deferred
conditional `Release` closure captures the `err` declared by the
block-scoped `vsmbShare, err := uvm.AddVSMB(...)` (which shadows the named
result): a `GetVSMBUvmPath` failure assigns that same variable, so the
release fires there and becomes a `releaseVSMB` event; but the
`if err := uvm.GuestRequest(ctx, guestReq); err != nil` failure assigns
only its own if-scoped `err`, leaving the captured one nil, so the
deferred release does not fire on that path and no `releaseVSMB` event is
recorded — the VSMB share object leaks. -/
def Share (env : ShareEnv) (uvm : UtilityVM) (reqHostPath reqUVMPath : String)
    (readOnly : Bool) : Option String × List ShareEvent :=
  if uvm.os = "windows" then
    match env.addVSMB reqHostPath readOnly with
    | some e => (some e, [])
    | none =>
      match env.getVSMBUvmPath reqHostPath readOnly with
      | .error e => (some e, [.addVSMB reqHostPath readOnly, .releaseVSMB])
      | .ok sharePath =>
        let guestReq : GuestRequest :=
          { ResourceType := .mappedDirectory
            RequestType := .add
            Settings :=
              { HostPath := sharePath, ContainerPath := reqUVMPath, ReadOnly := readOnly } }
        match env.guestRequest guestReq with
        | some e =>
            (some e, [.addVSMB reqHostPath readOnly, .guestRequest guestReq])
        | none => (none, [.addVSMB reqHostPath readOnly, .guestRequest guestReq])
  else
    match env.stat reqHostPath with
    | .error e => (some ("could not open '" ++ reqHostPath ++ "' path on host: " ++ e), [])
    | .ok st =>
      if st.isDir then
        match env.addPlan9 reqHostPath reqUVMPath readOnly false [] with
        | some e => (some e, [])
        | none => (none, [.addPlan9 reqHostPath reqUVMPath readOnly false []])
      else
        let dirFile := winSplit reqHostPath
        match env.addPlan9 dirFile.1 reqUVMPath readOnly true [dirFile.2] with
        | some e => (some e, [])
        | none => (none, [.addPlan9 dirFile.1 reqUVMPath readOnly true [dirFile.2]])

/-- How many VSMB share allocations a trace records. -/
def vsmbAllocCount (evs : List ShareEvent) : Nat :=
  (evs.filter fun e => match e with | .addVSMB _ _ => true | _ => false).length

/-- How many VSMB share releases a trace records. -/
def vsmbReleaseCount (evs : List ShareEvent) : Nat :=
  (evs.filter fun e => match e with | .releaseVSMB => true | _ => false).length

/-- How many Plan9 share allocations a trace records. -/
def plan9AllocCount (evs : List ShareEvent) : Nat :=
  (evs.filter fun e => match e with | .addPlan9 _ _ _ _ _ => true | _ => false).length

/-- How many Plan9 share releases a trace records. -/
def plan9ReleaseCount (evs : List ShareEvent) : Nat :=
  (evs.filter fun e => match e with | .releasePlan9 => true | _ => false).length

/-- The guest requests a trace sends, in order. -/
def guestRequestsSent (evs : List ShareEvent) : List GuestRequest :=
  evs.filterMap fun e => match e with | .guestRequest r => some r | _ => none

/-! ### `internal/uvm/computeagent.go`: the compute-agent ttrpc service

`AddNIC` and `DeleteNIC` resolve an HNS endpoint by name and delegate to
the UtilityVM's namespace attach/remove.  `hns.GetHNSEndpointByName`,
`AddEndpointToNSWithID` and `RemoveEndpointFromNS` are external
collaborators supplied in `AgentEnv`; the delegate invocations are recorded
as an event trace.  The structured log lines (pure observability, no
control flow) are not modelled. -/

/-- `hns.HNSEndpoint.Namespace` (only the `ID` field is consumed). -/
structure HNSNamespace where
  ID : String
deriving DecidableEq

/-- `hns.HNSEndpoint` as consumed by the compute agent: the endpoint value
itself is handed through to the delegate, and its namespace ID is read. -/
structure HNSEndpoint where
  Id : String
  Namespace : HNSNamespace
deriving DecidableEq

/-- `computeagent.AddNICInternalRequest`. -/
structure AddNICInternalRequest where
  ContainerID : String
  NicID : String
  EndpointName : String
deriving DecidableEq

/-- `computeagent.AddNICInternalResponse` (empty message). -/
structure AddNICInternalResponse where
deriving DecidableEq

/-- `computeagent.DeleteNICInternalRequest`. -/
structure DeleteNICInternalRequest where
  ContainerID : String
  NicID : String
  EndpointName : String
deriving DecidableEq

/-- `computeagent.DeleteNICInternalResponse` (empty message). -/
structure DeleteNICInternalResponse where
deriving DecidableEq

/-- The guest-facing delegate invocations the compute agent performs. -/
inductive AgentEvent where
  | addEndpointToNSWithID (nsID nicID : String) (endpoint : HNSEndpoint)
  | removeEndpointFromNS (nsID : String) (endpoint : HNSEndpoint)
deriving DecidableEq

/-- The external collaborators of the compute agent, as result oracles. -/
structure AgentEnv where
  getHNSEndpointByName : String → Except String HNSEndpoint
  addEndpointToNSWithID : String → String → HNSEndpoint → Option String
  removeEndpointFromNS : String → HNSEndpoint → Option String

/-- `(*computeAgent).AddNIC`: the pair (response, error) the RPC caller
sees, plus the trace of delegate invocations. -/
def AddNIC (env : AgentEnv) (req : AddNICInternalRequest) :
    (Option AddNICInternalResponse × Option String) × List AgentEvent :=
  match env.getHNSEndpointByName req.EndpointName with
  | .error e =>
      ((none, some (wrapf ("failed to get endpoint with name " ++ goQuote req.EndpointName) e)),
        [])
  | .ok endpoint =>
      match env.addEndpointToNSWithID endpoint.Namespace.ID req.NicID endpoint with
      | some e =>
          ((none, some e), [.addEndpointToNSWithID endpoint.Namespace.ID req.NicID endpoint])
      | none =>
          ((some {}, none), [.addEndpointToNSWithID endpoint.Namespace.ID req.NicID endpoint])

/-- `(*computeAgent).DeleteNIC`: the pair (response, error) the RPC caller
sees, plus the trace of delegate invocations. -/
def DeleteNIC (env : AgentEnv) (req : DeleteNICInternalRequest) :
    (Option DeleteNICInternalResponse × Option String) × List AgentEvent :=
  match env.getHNSEndpointByName req.EndpointName with
  | .error e =>
      ((none, some (wrapf ("failed to get endpoint with name " ++ goQuote req.EndpointName) e)),
        [])
  | .ok endpoint =>
      match env.removeEndpointFromNS endpoint.Namespace.ID endpoint with
      | some e => ((none, some e), [.removeEndpointFromNS endpoint.Namespace.ID endpoint])
      | none => ((some {}, none), [.removeEndpointFromNS endpoint.Namespace.ID endpoint])

/-- `trapClosedConnErr` of `internal/uvm/computeagent.go`. -/
def trapClosedConnErr (err : Option String) : Option String :=
  match err with
  | none => none
  | some msg =>
      if goContains msg "use of closed network connection" then none else some msg

/-- The serving goroutine of `setupAndServe`: it logs `Fatal` (terminating
the hosting process) exactly when `trapClosedConnErr` of the serve loop's
result is non-nil. -/
def serveLoopFatal (serveResult : Option String) : Bool :=
  (trapClosedConnErr serveResult).isSome

/-! ### `internal/wclayer`: layer paths to descriptors

`layerPathsToDescriptors` converts an ordered list of parent-layer paths
into `WC_LAYER_DESCRIPTOR` records.  `NameToGuid` (an hcsshim syscall) and
`syscall.UTF16PtrFromString` are external collaborators supplied in
`WCLayerEnv`. -/

/-- `guid.GUID`: an opaque 16-byte identity; its contents come only from
the `nameToGuid` oracle. -/
structure GUID where
  bytes : List Nat
deriving DecidableEq

/-- A `*uint16` produced by `syscall.UTF16PtrFromString`: modelled by the
UTF-16 data it points at, as produced by the oracle. -/
structure UTF16Ptr where
  words : List Nat
deriving DecidableEq

/-- `WC_LAYER_DESCRIPTOR` of `internal/wclayer`. -/
structure WC_LAYER_DESCRIPTOR where
  LayerId : GUID
  Flags : Nat
  Pathp : UTF16Ptr
deriving DecidableEq

/-- The external collaborators of `layerPathsToDescriptors`. -/
structure WCLayerEnv where
  nameToGuid : String → Except String GUID
  utf16PtrFromString : String → Except String UTF16Ptr

/-- `layerPathsToDescriptors` of `internal/wclayer`: the Go loop walks the
paths in order, converting the final path component (`filepath.Split`) to a
GUID and the whole path to a UTF-16 pointer, and aborts with `(nil, err)`
at the first failing conversion; here the loop is the structural recursion
and `(nil, err)` is `.error err`. -/
def layerPathsToDescriptors (env : WCLayerEnv) :
    List String → Except String (List WC_LAYER_DESCRIPTOR)
  | [] => .ok []
  | p :: rest =>
    match env.nameToGuid (winSplit p).2 with
    | .error e => .error e
    | .ok g =>
      match env.utf16PtrFromString p with
      | .error e => .error e
      | .ok ptr =>
        match layerPathsToDescriptors env rest with
        | .error e => .error e
        | .ok layers => .ok ({ LayerId := g, Flags := 0, Pathp := ptr } :: layers)

/-- The error of the first failing conversion in the loop's processing
order (paths in order; per path, `NameToGuid` of the final component is
checked before `UTF16PtrFromString` of the path), or `none` when every
conversion succeeds: the error `layerPathsToDescriptors` is claimed to
return. -/
def firstConversionError (env : WCLayerEnv) : List String → Option String
  | [] => none
  | p :: rest =>
    match env.nameToGuid (winSplit p).2 with
    | .error e => some e
    | .ok _ =>
      match env.utf16PtrFromString p with
      | .error e => some e
      | .ok _ => firstConversionError env rest

/-! ### The guest-side `hcsv2` workload container spec setup

`updateSandboxMounts` and `setupWorkloadContainerSpec` run inside the Linux
guest and rewrite an OCI spec in place; here the spec is threaded
explicitly and each function returns (error, resulting spec state), so an
erroring return exposes exactly the partial mutation the Go code leaves
behind.  Tracing (`trace.StartSpan`, span attributes) and log lines are
pure observability and are not modelled. -/

/-- `oci.Mount` (the fields the embedded code reads or writes). -/
structure Mount where
  Destination : String
  «Type» : String
  Source : String
  Options : List String
deriving DecidableEq

/-- `oci.LinuxDevice` as built from a host device. -/
structure LinuxDevice where
  Path : String
  «Type» : String
  Major : Int
  Minor : Int
  UID : Nat
  GID : Nat
deriving DecidableEq

/-- `oci.LinuxDeviceCgroup` (the fields the embedded code sets). -/
structure LinuxDeviceCgroup where
  Allow : Bool
  Access : String
deriving DecidableEq

/-- `oci.LinuxResources` (the field the embedded code sets). -/
structure LinuxResources where
  Devices : List LinuxDeviceCgroup
deriving DecidableEq

/-- `oci.Linux` (the fields the embedded code touches).  A workload spec
handed to the guest always carries a Linux section (the Go code
dereferences `spec.Linux` unconditionally in the privileged branch), so it
is modelled as a plain field. -/
structure LinuxSection where
  Devices : List LinuxDevice
  Resources : LinuxResources
deriving DecidableEq

/-- `oci.Root` (the field `isRootReadonly` consults). -/
structure RootSection where
  Readonly : Bool
deriving DecidableEq

/-- `oci.Spec` (the fields the embedded code reads or writes).  The Windows
section's contents are irrelevant to the embedded code (it only clears the
pointer), so it is modelled by its presence. -/
structure OCISpec where
  Hostname : String
  Mounts : List Mount
  Annotations : List (String × String)
  Root : Option RootSection
  Linux : LinuxSection
  Windows : Option Unit
deriving DecidableEq

/-- `devices.Device` of runc (the fields the embedded code reads). -/
structure HostDevice where
  Path : String
  «Type» : String
  Major : Int
  Minor : Int
  Uid : Nat
  Gid : Nat
deriving DecidableEq

/-- Go `spec.Annotations[k]` for a `map[string]string`: the value, or the
zero value `""` when the key is absent. -/
def annGet (anns : List (String × String)) (k : String) : String :=
  (((anns.find? fun kv => kv.1 = k).map fun kv => kv.2).getD "")

/-- Go `v, ok := spec.Annotations[k]`: the value together with presence. -/
def annFind (anns : List (String × String)) (k : String) : Option String :=
  (anns.find? fun kv => kv.1 = k).map fun kv => kv.2

/-- Modelled from the spec: the per-sandbox root directory (`getSandboxRootDir`
is not among the provided sources; the spec only requires a directory derived
from the sandbox identifier). -/
def getSandboxRootDir (sbid : String) : String :=
  "/run/gcs/c/" ++ sbid

/-- Modelled from the spec: the per-sandbox mounts directory under which
reserved-scheme mount sources are confined (`getSandboxMountsDir` is not among
the provided sources). -/
def getSandboxMountsDir (sbid : String) : String :=
  goJoinU (getSandboxRootDir sbid) "sandboxMounts"

/-- Modelled from the spec: the sandbox's hostname file path
(`getSandboxHostnamePath` is not among the provided sources). -/
def getSandboxHostnamePath (sbid : String) : String :=
  goJoinU (getSandboxRootDir sbid) "hostname"

/-- Modelled from the spec: the sandbox's hosts file path
(`getSandboxHostsPath` is not among the provided sources). -/
def getSandboxHostsPath (sbid : String) : String :=
  goJoinU (getSandboxRootDir sbid) "hosts"

/-- Modelled from the spec: the sandbox's resolv.conf file path
(`getSandboxResolvPath` is not among the provided sources). -/
def getSandboxResolvPath (sbid : String) : String :=
  goJoinU (getSandboxRootDir sbid) "resolv.conf"

/-- Modelled from the spec: `isInMounts(dst, mounts)` (not among the provided
sources) tells whether the spec already carries a mount at destination `dst`
("Add /etc/hostname if the spec did not override it"). -/
def isInMounts (dst : String) (mounts : List Mount) : Bool :=
  mounts.any fun m => m.Destination = dst

/-- Modelled from the spec: `isRootReadonly` (not among the provided sources)
reads the spec's root-readonly flag. -/
def isRootReadonly (spec : OCISpec) : Bool :=
  match spec.Root with
  | some r => r.Readonly
  | none => false

/-- The external collaborators of the guest spec setup: the filesystem calls
of `updateSandboxMounts` (`os.Stat` probed through `os.IsNotExist`, and
`os.MkdirAll`), runc's host device enumeration, and `setUserStr` (not among
the provided sources), which may rewrite the spec or fail. -/
structure GuestEnv where
  statIsNotExist : String → Bool
  mkdirAll : String → Option String
  hostDevices : Except String (List HostDevice)
  setUserStr : OCISpec → String → Option String × OCISpec

/-- `updateSandboxMounts` of the hcsv2 guest code, acting on the spec's
mount list: each mount whose source carries the `sandbox://` scheme has its
source rewritten to `filepath.Join(mountsDir, subPath)` after the
`strings.HasPrefix` confinement check; the first failure (confinement check
or `MkdirAll`) returns its error with the earlier mounts already rewritten
and the later ones untouched, exactly as the in-place Go loop leaves them. -/
def updateSandboxMounts (env : GuestEnv) (sbid : String) :
    List Mount → Option String × List Mount
  | [] => (none, [])
  | m :: rest =>
    if hasPref m.Source "sandbox://" then
      let mountsDir := getSandboxMountsDir sbid
      let subPath := trimPref m.Source "sandbox://"
      let sandboxSource := goJoinU mountsDir subPath
      if !(hasPref sandboxSource mountsDir) then
        (some ("mount path " ++ sandboxSource ++ " for mount " ++ m.Source ++
          " is not within sandbox's mounts dir"), m :: rest)
      else
        let m' := { m with Source := sandboxSource }
        if env.statIsNotExist sandboxSource then
          match env.mkdirAll sandboxSource with
          | some e => (some e, m' :: rest)
          | none =>
            let r := updateSandboxMounts env sbid rest
            (r.1, m' :: r.2)
        else
          let r := updateSandboxMounts env sbid rest
          (r.1, m' :: r.2)
    else
      let r := updateSandboxMounts env sbid rest
      (r.1, m :: r.2)

/-- The bind mount `setupWorkloadContainerSpec` injects at `dst` from
`src`, read-only when the spec's root is. -/
def etcBindMount (spec : OCISpec) (dst src : String) : Mount :=
  { Destination := dst
    «Type» := "bind"
    Source := src
    Options := if isRootReadonly spec then ["bind", "ro"] else ["bind"] }

/-- The device record Go builds from a host device (`rd`). -/
def rdOfHostDevice (hd : HostDevice) : LinuxDevice :=
  { Path := hd.Path, «Type» := hd.«Type», Major := hd.Major, Minor := hd.Minor
    UID := hd.Uid, GID := hd.Gid }

/-- The Go per-device merge loop: replace the first spec device with the
same path, else append at the end. -/
def addOrReplaceDevice (rd : LinuxDevice) : List LinuxDevice → List LinuxDevice
  | [] => [rd]
  | d :: rest => if d.Path = rd.Path then rd :: rest else d :: addOrReplaceDevice rd rest

/-- The host-device loop of the privileged branch: devices with
`Major == 0 && Minor == 0` are skipped, the rest merged in order. -/
def applyHostDevices (devs : List LinuxDevice) : List HostDevice → List LinuxDevice
  | [] => devs
  | hd :: rest =>
    if hd.Major = 0 ∧ hd.Minor = 0 then applyHostDevices devs rest
    else applyHostDevices (addOrReplaceDevice (rdOfHostDevice hd) devs) rest

/-- The tail of `setupWorkloadContainerSpec` shared by both device
branches: the `io.microsoft.lcow.userstr` annotation handling followed by
clearing of the Windows section. -/
def setupWorkloadFinish (env : GuestEnv) (spec : OCISpec) : Option String × OCISpec :=
  match annFind spec.Annotations "io.microsoft.lcow.userstr" with
  | some userstr =>
    match env.setUserStr spec userstr with
    | (some e, spec') => (some e, spec')
    | (none, spec') => (none, { spec' with Windows := none })
  | none => (none, { spec with Windows := none })

/-- `setupWorkloadContainerSpec` of the hcsv2 guest code: hostname policy,
sandbox mount rewriting, the three /etc bind-mount injections, privileged
device passthrough, the user annotation, and clearing of the Windows
section, returning (error, resulting spec state). -/
def setupWorkloadContainerSpec (env : GuestEnv) (sbid id : String) (spec : OCISpec) :
    Option String × OCISpec :=
  if spec.Hostname ≠ "" then
    (some ("workload container must not change hostname: " ++ spec.Hostname), spec)
  else
    match updateSandboxMounts env sbid spec.Mounts with
    | (some e, mounts1) =>
        (some (wrapf ("failed to update sandbox mounts for container " ++ id ++
          " in sandbox " ++ sbid) e), { spec with Mounts := mounts1 })
    | (none, mounts1) =>
      let spec1 := { spec with Mounts := mounts1 }
      let spec2 :=
        if isInMounts "/etc/hostname" spec1.Mounts then spec1
        else { spec1 with
          Mounts := spec1.Mounts ++ [etcBindMount spec1 "/etc/hostname" (getSandboxHostnamePath sbid)] }
      let spec3 :=
        if isInMounts "/etc/hosts" spec2.Mounts then spec2
        else { spec2 with
          Mounts := spec2.Mounts ++ [etcBindMount spec2 "/etc/hosts" (getSandboxHostsPath sbid)] }
      let spec4 :=
        if isInMounts "/etc/resolv.conf" spec3.Mounts then spec3
        else { spec3 with
          Mounts := spec3.Mounts ++ [etcBindMount spec3 "/etc/resolv.conf" (getSandboxResolvPath sbid)] }
      if annGet spec4.Annotations "io.microsoft.virtualmachine.lcow.privileged" = "true" then
        match env.hostDevices with
        | .error e => (some e, spec4)
        | .ok hds =>
          let spec5 := { spec4 with Linux :=
            { Devices := applyHostDevices spec4.Linux.Devices hds
              Resources := { Devices := [{ Allow := true, Access := "rwm" }] } } }
          setupWorkloadFinish env spec5
      else
        setupWorkloadFinish env spec4

/-! ### Concrete environments for witnesses and counterexamples -/

/-- Environment exhibiting C1's leak: the VSMB allocation and guest-path
computation succeed and the guest MappedDirectory Add request fails. -/
def envC1 : ShareEnv :=
  { addVSMB := fun _ _ => none
    getVSMBUvmPath := fun _ _ => .ok "\\\\vsmb\\path"
    guestRequest := fun _ => some "guest add failed"
    stat := fun _ => .ok { isDir := true }
    addPlan9 := fun _ _ _ _ _ => none }

/-- Environment witnessing C3: stat sees a regular file; allocation
succeeds. -/
def envC3 : ShareEnv :=
  { addVSMB := fun _ _ => none
    getVSMBUvmPath := fun _ _ => .ok "unused"
    guestRequest := fun _ => none
    stat := fun _ => .ok { isDir := false }
    addPlan9 := fun _ _ _ _ _ => none }

/-- Environment witnessing C4: every collaborator succeeds. -/
def envC4 : ShareEnv :=
  { addVSMB := fun _ _ => none
    getVSMBUvmPath := fun _ _ => .ok "\\\\host\\share"
    guestRequest := fun _ => none
    stat := fun _ => .ok { isDir := true }
    addPlan9 := fun _ _ _ _ _ => none }

/-- Environment witnessing C5: the endpoint name does not resolve. -/
def envC5 : AgentEnv :=
  { getHNSEndpointByName := fun _ => .error "hns: not found"
    addEndpointToNSWithID := fun _ _ _ => none
    removeEndpointFromNS := fun _ _ => none }

/-- Environment refuting C6: resolution succeeds, the delegate fails with a
message that does not mention the endpoint name. -/
def envC6 : AgentEnv :=
  { getHNSEndpointByName := fun _ => .ok { Id := "ep-id", Namespace := { ID := "ns1" } }
    addEndpointToNSWithID := fun _ _ _ => some "boom"
    removeEndpointFromNS := fun _ _ => some "boom" }

/-- Environment witnessing C9. -/
def envC9 : AgentEnv :=
  { getHNSEndpointByName := fun _ => .ok { Id := "ep-id", Namespace := { ID := "ns1" } }
    addEndpointToNSWithID := fun _ _ _ => none
    removeEndpointFromNS := fun _ _ => none }

/-- Environment for evaluating `updateSandboxMounts`: the target path
already exists, so no directory is created. -/
def envC7 : GuestEnv :=
  { statIsNotExist := fun _ => false
    mkdirAll := fun _ => none
    hostDevices := .ok []
    setUserStr := fun s _ => (none, s) }

/-- The mount whose source escapes through the string-prefix check. -/
def mountC7 : Mount :=
  { Destination := "/data", «Type» := "bind"
    Source := "sandbox://../sandboxMountsEvil/x", Options := [] }

/-- Environment witnessing C8: conversions that depend only on the inputs
they are given. -/
def envC8 : WCLayerEnv :=
  { nameToGuid := fun s => if s = "bad" then .error "bad name" else .ok { bytes := [s.length] }
    utf16PtrFromString := fun p => .ok { words := [p.length] } }

/-- Environment witnessing C10. -/
def envC10 : GuestEnv :=
  { statIsNotExist := fun _ => false
    mkdirAll := fun _ => none
    hostDevices := .ok []
    setUserStr := fun s _ => (none, s) }

/-- A spec that sets a hostname and would otherwise be rewritten in several
ways. -/
def specC10 : OCISpec :=
  { Hostname := "evil-host"
    Mounts := [{ Destination := "/d", «Type» := "bind", Source := "sandbox://m", Options := [] }]
    Annotations := [("io.microsoft.virtualmachine.lcow.privileged", "true")]
    Root := some { Readonly := false }
    Linux := { Devices := [], Resources := { Devices := [] } }
    Windows := some () }

/-! ### Theorems -/

/-- C1 fails on the code at the guest-request step: with the VSMB
allocation and guest-path computation succeeding and the guest
MappedDirectory Add request failing, `Share` returns the guest error but
the deferred `vsmbShare.Release` never runs (it watches the block-scoped
`err`, which the if-scoped `err := uvm.GuestRequest(...)` does not
assign), so the one VSMB share allocated by the call is never released —
the host-side share object outlives the erroring return. -/
theorem C1_guest_request_leak :
    Share envC1 { os := "windows" } "C:\\host" "/guest" false =
      (some "guest add failed",
        [ShareEvent.addVSMB "C:\\host" false,
         ShareEvent.guestRequest
           { ResourceType := .mappedDirectory
             RequestType := .add
             Settings :=
               { HostPath := "\\\\vsmb\\path", ContainerPath := "/guest", ReadOnly := false } }]) ∧
    vsmbAllocCount (Share envC1 { os := "windows" } "C:\\host" "/guest" false).2 = 1 ∧
    vsmbReleaseCount (Share envC1 { os := "windows" } "C:\\host" "/guest" false).2 = 0 := by
  decide

/-- C2: `trapClosedConnErr` returns nil exactly on a nil error or one whose
message contains "use of closed network connection", returns the error
itself otherwise, and the serving task escalates to a fatal process exit
exactly when the trapped result is non-nil. -/
theorem C2_trapClosedConnErr (e : Option String) :
    (trapClosedConnErr e = none ↔
      (e = none ∨ ∃ m, e = some m ∧ goContains m "use of closed network connection" = true)) ∧
    (trapClosedConnErr e ≠ none → trapClosedConnErr e = e) ∧
    (serveLoopFatal e = false ↔ trapClosedConnErr e = none) := by
  rcases e with _ | m
  · simp [trapClosedConnErr, serveLoopFatal]
  · by_cases h : goContains m "use of closed network connection" = true
    · simp [trapClosedConnErr, serveLoopFatal, h]
    · simp [trapClosedConnErr, serveLoopFatal, h]

/-- C2 at a concrete input: an unrelated serve-loop error passes through. -/
theorem C2_witness : trapClosedConnErr (some "boom") = some "boom" :=
  (C2_trapClosedConnErr (some "boom")).2.1 (by decide)

/-- C3: on a non-Windows guest, a hostPath that stats as a non-directory is
shared via Plan9 rooted at the file's parent directory with
restrictAccess true and allowed names exactly the file's name, while a
directory is shared as-is with restrictAccess false and no allowed
names. -/
theorem C3_linux_single_file_restriction (env : ShareEnv) (uvm : UtilityVM)
    (hp up : String) (ro : Bool) (st : GoFileInfo)
    (hnotwin : uvm.os ≠ "windows")
    (hstat : env.stat hp = .ok st) :
    (st.isDir = false →
      env.addPlan9 (winSplit hp).1 up ro true [(winSplit hp).2] = none →
      Share env uvm hp up ro =
        (none, [ShareEvent.addPlan9 (winSplit hp).1 up ro true [(winSplit hp).2]])) ∧
    (st.isDir = true →
      env.addPlan9 hp up ro false [] = none →
      Share env uvm hp up ro = (none, [ShareEvent.addPlan9 hp up ro false []])) := by
  constructor <;> intro hdir halloc <;>
    simp [Share, hnotwin, hstat, hdir, halloc]

/-- C3 at a concrete input: sharing the file `C:\dir\file.txt`. -/
theorem C3_witness :
    Share envC3 { os := "linux" } "C:\\dir\\file.txt" "/g" true =
      (none, [ShareEvent.addPlan9 (winSplit "C:\\dir\\file.txt").1 "/g" true true
        [(winSplit "C:\\dir\\file.txt").2]]) :=
  (C3_linux_single_file_restriction envC3 { os := "linux" } "C:\\dir\\file.txt" "/g" true
    { isDir := false } (by decide) rfl).1 rfl rfl

/-- C4: `Share` selects the mechanism solely from the UVM's OS family.  On
a Windows guest no Plan9 share is ever allocated, and once the VSMB
allocation and guest-path computation succeed, exactly one VSMB share is
allocated and exactly the guest request {MappedDirectory, Add, {computed
VSMB path, guest path, readOnly}} is sent; on a non-Windows guest no VSMB
share is allocated, no guest request is ever sent, and a successful call
allocated exactly one Plan9 share. -/
theorem C4_mechanism_by_os (env : ShareEnv) (uvm : UtilityVM) (hp up : String) (ro : Bool) :
    (uvm.os = "windows" →
      plan9AllocCount (Share env uvm hp up ro).2 = 0 ∧
      (∀ sp, env.addVSMB hp ro = none → env.getVSMBUvmPath hp ro = .ok sp →
        vsmbAllocCount (Share env uvm hp up ro).2 = 1 ∧
        guestRequestsSent (Share env uvm hp up ro).2 =
          [{ ResourceType := .mappedDirectory
             RequestType := .add
             Settings := { HostPath := sp, ContainerPath := up, ReadOnly := ro } }])) ∧
    (uvm.os ≠ "windows" →
      vsmbAllocCount (Share env uvm hp up ro).2 = 0 ∧
      guestRequestsSent (Share env uvm hp up ro).2 = [] ∧
      ((Share env uvm hp up ro).1 = none → plan9AllocCount (Share env uvm hp up ro).2 = 1)) := by
  constructor
  · intro hwin
    constructor
    · cases halloc : env.addVSMB hp ro with
      | some e => simp [Share, hwin, halloc, plan9AllocCount]
      | none =>
        cases hpath : env.getVSMBUvmPath hp ro with
        | error e => simp [Share, hwin, halloc, hpath, plan9AllocCount]
        | ok sp =>
          cases hreq : env.guestRequest
              { ResourceType := .mappedDirectory
                RequestType := .add
                Settings := { HostPath := sp, ContainerPath := up, ReadOnly := ro } } with
          | some e => simp [Share, hwin, halloc, hpath, hreq, plan9AllocCount]
          | none => simp [Share, hwin, halloc, hpath, hreq, plan9AllocCount]
    · intro sp halloc hpath
      cases hreq : env.guestRequest
          { ResourceType := .mappedDirectory
            RequestType := .add
            Settings := { HostPath := sp, ContainerPath := up, ReadOnly := ro } } with
      | some e => simp [Share, hwin, halloc, hpath, hreq, vsmbAllocCount, guestRequestsSent]
      | none => simp [Share, hwin, halloc, hpath, hreq, vsmbAllocCount, guestRequestsSent]
  · intro hnotwin
    cases hstat : env.stat hp with
    | error e => simp [Share, hnotwin, hstat, vsmbAllocCount, guestRequestsSent, plan9AllocCount]
    | ok st =>
      cases hdir : st.isDir with
      | true =>
        cases hp9 : env.addPlan9 hp up ro false [] with
        | some e =>
            simp [Share, hnotwin, hstat, hdir, hp9, vsmbAllocCount, guestRequestsSent,
              plan9AllocCount]
        | none =>
            simp [Share, hnotwin, hstat, hdir, hp9, vsmbAllocCount, guestRequestsSent,
              plan9AllocCount]
      | false =>
        cases hp9 : env.addPlan9 (winSplit hp).1 up ro true [(winSplit hp).2] with
        | some e =>
            simp [Share, hnotwin, hstat, hdir, hp9, vsmbAllocCount, guestRequestsSent,
              plan9AllocCount]
        | none =>
            simp [Share, hnotwin, hstat, hdir, hp9, vsmbAllocCount, guestRequestsSent,
              plan9AllocCount]

/-- C4 at a concrete input: the Windows branch sends exactly the stated
guest request. -/
theorem C4_witness :
    vsmbAllocCount (Share envC4 { os := "windows" } "C:\\host" "/guest" true).2 = 1 ∧
    guestRequestsSent (Share envC4 { os := "windows" } "C:\\host" "/guest" true).2 =
      [{ ResourceType := .mappedDirectory
         RequestType := .add
         Settings :=
           { HostPath := "\\\\host\\share", ContainerPath := "/guest", ReadOnly := true } }] :=
  ((C4_mechanism_by_os envC4 { os := "windows" } "C:\\host" "/guest" true).1 rfl).2
    "\\\\host\\share" rfl rfl

/-- C5: an `AddNIC` request whose endpoint name fails to resolve returns a
nil response with the resolution error wrapped with the endpoint name and
performs no namespace-attach invocation; when resolution and attach both
succeed it returns the empty response and nil error, the attach having
been invoked with the resolved endpoint's namespace ID, the request's
nicID and the endpoint. -/
theorem C5_addnic_resolution (env : AgentEnv) (req : AddNICInternalRequest) :
    (∀ e, env.getHNSEndpointByName req.EndpointName = .error e →
      AddNIC env req =
        ((none,
          some (wrapf ("failed to get endpoint with name " ++ goQuote req.EndpointName) e)),
          [])) ∧
    (∀ ep, env.getHNSEndpointByName req.EndpointName = .ok ep →
      env.addEndpointToNSWithID ep.Namespace.ID req.NicID ep = none →
      AddNIC env req =
        ((some {}, none), [AgentEvent.addEndpointToNSWithID ep.Namespace.ID req.NicID ep])) := by
  constructor
  · intro e h
    simp [AddNIC, h]
  · intro ep h hatt
    simp [AddNIC, h, hatt]

/-- C5 at a concrete input: resolution failure wraps the error with the
endpoint name and attaches nothing. -/
theorem C5_witness :
    AddNIC envC5 { ContainerID := "c1", NicID := "nic1", EndpointName := "eth0" } =
      ((none, some (wrapf ("failed to get endpoint with name " ++ goQuote "eth0")
        "hns: not found")), []) :=
  (C5_addnic_resolution envC5
    { ContainerID := "c1", NicID := "nic1", EndpointName := "eth0" }).1 "hns: not found" rfl

/-- C6 counterexample: when the delegate fails with "boom", both `AddNIC`
and `DeleteNIC` return exactly "boom" to the RPC caller — a message that
does not even contain the endpoint name "eth0", so it is not the delegate
error wrapped with the endpoint name. -/
theorem C6_counterexample :
    (AddNIC envC6 { ContainerID := "c1", NicID := "nic1", EndpointName := "eth0" }).1.2 =
      some "boom" ∧
    (DeleteNIC envC6 { ContainerID := "c1", NicID := "nic1", EndpointName := "eth0" }).1.2 =
      some "boom" ∧
    goContains "boom" "eth0" = false := by
  decide

/-- C6 as amended: an erroring delegate's error is returned to the RPC
caller verbatim, unwrapped (only the endpoint-resolution error is wrapped
with the endpoint name, which is C5's statement). -/
theorem C6_amended_delegate_error_verbatim (env : AgentEnv)
    (reqA : AddNICInternalRequest) (reqD : DeleteNICInternalRequest) :
    (∀ ep e, env.getHNSEndpointByName reqA.EndpointName = .ok ep →
      env.addEndpointToNSWithID ep.Namespace.ID reqA.NicID ep = some e →
      AddNIC env reqA =
        ((none, some e), [AgentEvent.addEndpointToNSWithID ep.Namespace.ID reqA.NicID ep])) ∧
    (∀ ep e, env.getHNSEndpointByName reqD.EndpointName = .ok ep →
      env.removeEndpointFromNS ep.Namespace.ID ep = some e →
      DeleteNIC env reqD =
        ((none, some e), [AgentEvent.removeEndpointFromNS ep.Namespace.ID ep])) := by
  constructor
  · intro ep e h hd
    simp [AddNIC, h, hd]
  · intro ep e h hd
    simp [DeleteNIC, h, hd]

/-- C6 amended at a concrete input. -/
theorem C6_amended_witness :
    AddNIC envC6 { ContainerID := "c1", NicID := "nic1", EndpointName := "eth0" } =
      ((none, some "boom"),
        [AgentEvent.addEndpointToNSWithID "ns1" "nic1"
          { Id := "ep-id", Namespace := { ID := "ns1" } }]) :=
  (C6_amended_delegate_error_verbatim envC6
    { ContainerID := "c1", NicID := "nic1", EndpointName := "eth0" }
    { ContainerID := "c1", NicID := "nic1", EndpointName := "eth0" }).1
    { Id := "ep-id", Namespace := { ID := "ns1" } } "boom" rfl rfl

/-- C7 fails on the code: the confinement check is a bare
`strings.HasPrefix` against the mounts directory, so the source
`sandbox://../sandboxMountsEvil/x` is rewritten — without an error — to a
sibling directory that merely shares the mounts directory's name as a
string prefix and lies outside it. -/
theorem C7_sandbox_mount_escape :
    updateSandboxMounts envC7 "sb" [mountC7] =
      (none, [{ mountC7 with Source := "/run/gcs/c/sb/sandboxMountsEvil/x" }]) ∧
    pathWithinDir (getSandboxMountsDir "sb") "/run/gcs/c/sb/sandboxMountsEvil/x" = false := by
  decide

/-- C8: on paths where no name-to-GUID or string conversion fails,
`layerPathsToDescriptors` succeeds with one descriptor per input path, in
order, with the identity produced from the path's final component, flags 0
and the path's converted pointer; when any conversion fails it returns
`(nil, err)` where `err` is the first failing conversion's error in the
loop's processing order. -/
theorem C8_layer_descriptors (env : WCLayerEnv) (paths : List String) :
    ((∀ p ∈ paths, (∃ g, env.nameToGuid (winSplit p).2 = .ok g) ∧
        ∃ ptr, env.utf16PtrFromString p = .ok ptr) →
      ∃ (layers : List WC_LAYER_DESCRIPTOR),
        layerPathsToDescriptors env paths = .ok layers ∧
        layers.length = paths.length ∧
        ∀ (i : Nat) (p : String), paths[i]? = some p →
          ∃ (g : GUID) (ptr : UTF16Ptr), env.nameToGuid (winSplit p).2 = .ok g ∧
            env.utf16PtrFromString p = .ok ptr ∧
            layers[i]? = some { LayerId := g, Flags := 0, Pathp := ptr }) ∧
    ((∃ p ∈ paths, (∃ e, env.nameToGuid (winSplit p).2 = .error e) ∨
        ∃ e, env.utf16PtrFromString p = .error e) →
      ∃ e, firstConversionError env paths = some e ∧
        layerPathsToDescriptors env paths = .error e) := by
  induction paths with
  | nil =>
      constructor
      · intro _
        refine ⟨[], rfl, rfl, ?_⟩
        intro i p hp
        simp at hp
      · rintro ⟨p, hp, -⟩
        simp at hp
  | cons p rest ih =>
      constructor
      · intro hconv
        obtain ⟨⟨g, hg⟩, ⟨ptr, hptr⟩⟩ := hconv p (List.mem_cons_self p rest)
        obtain ⟨ls, hls, hlen, hidx⟩ :=
          ih.1 fun q hq => hconv q (List.mem_cons_of_mem p hq)
        refine ⟨{ LayerId := g, Flags := 0, Pathp := ptr } :: ls, ?_, by simp [hlen], ?_⟩
        · simp [layerPathsToDescriptors, hg, hptr, hls]
        · intro i q hq
          match i with
          | 0 =>
              simp only [List.getElem?_cons_zero, Option.some.injEq] at hq
              subst hq
              exact ⟨g, ptr, hg, hptr, by simp⟩
          | Nat.succ j =>
              simp only [List.getElem?_cons_succ] at hq
              obtain ⟨g2, ptr2, h1, h2, h3⟩ := hidx j q hq
              exact ⟨g2, ptr2, h1, h2, by simpa using h3⟩
      · rintro ⟨q, hq, hfail⟩
        rcases List.mem_cons.mp hq with rfl | hqrest
        · rcases hfail with ⟨e, he⟩ | ⟨e, he⟩
          · exact ⟨e, by simp [firstConversionError, he],
              by simp [layerPathsToDescriptors, he]⟩
          · cases hg : env.nameToGuid (winSplit q).2 with
            | error e2 =>
                exact ⟨e2, by simp [firstConversionError, hg],
                  by simp [layerPathsToDescriptors, hg]⟩
            | ok g =>
                exact ⟨e, by simp [firstConversionError, hg, he],
                  by simp [layerPathsToDescriptors, hg, he]⟩
        · obtain ⟨e, hfe, herr⟩ := ih.2 ⟨q, hqrest, hfail⟩
          cases hg : env.nameToGuid (winSplit p).2 with
          | error e2 =>
              exact ⟨e2, by simp [firstConversionError, hg],
                by simp [layerPathsToDescriptors, hg]⟩
          | ok g =>
            cases hptr : env.utf16PtrFromString p with
            | error e2 =>
                exact ⟨e2, by simp [firstConversionError, hg, hptr],
                  by simp [layerPathsToDescriptors, hg, hptr]⟩
            | ok ptr =>
                exact ⟨e, by simp [firstConversionError, hg, hptr, hfe],
                  by simp [layerPathsToDescriptors, hg, hptr, herr]⟩

/-- C8 at a concrete input: a failure-free path list succeeds with the
descriptor built from the final component. -/
theorem C8_witness :
    ∃ (layers : List WC_LAYER_DESCRIPTOR),
      layerPathsToDescriptors envC8 ["C:\\l\\base"] = .ok layers ∧
      layers.length = (["C:\\l\\base"] : List String).length ∧
      ∀ (i : Nat) (p : String), (["C:\\l\\base"] : List String)[i]? = some p →
        ∃ (g : GUID) (ptr : UTF16Ptr), envC8.nameToGuid (winSplit p).2 = .ok g ∧
          envC8.utf16PtrFromString p = .ok ptr ∧
          layers[i]? = some { LayerId := g, Flags := 0, Pathp := ptr } :=
  (C8_layer_descriptors envC8 ["C:\\l\\base"]).1 (by
    intro p hp
    simp only [List.mem_singleton] at hp
    subst hp
    exact ⟨⟨{ bytes := [4] }, rfl⟩, ⟨{ words := [9] }, rfl⟩⟩)

/-- C9: `DeleteNIC` ignores the request's nicID — two requests identical
except in nicID resolve the same endpoint, perform the same namespace
remove, and return the same result. -/
theorem C9_deletenic_ignores_nicid (env : AgentEnv) (r1 r2 : DeleteNICInternalRequest)
    (hc : r1.ContainerID = r2.ContainerID) (he : r1.EndpointName = r2.EndpointName) :
    DeleteNIC env r1 = DeleteNIC env r2 := by
  cases r1
  cases r2
  cases hc
  cases he
  rfl

/-- C9 at a concrete input: two DeleteNIC requests differing only in nicID
coincide. -/
theorem C9_witness :
    DeleteNIC envC9 { ContainerID := "c1", NicID := "nic-a", EndpointName := "eth0" } =
      DeleteNIC envC9 { ContainerID := "c1", NicID := "nic-b", EndpointName := "eth0" } :=
  C9_deletenic_ignores_nicid envC9
    { ContainerID := "c1", NicID := "nic-a", EndpointName := "eth0" }
    { ContainerID := "c1", NicID := "nic-b", EndpointName := "eth0" } rfl rfl

/-- C10: a workload container spec with a non-empty Hostname is rejected
with the hostname error and handed back completely unmodified — no mount
rewriting or injection, no devices, and the Windows section still in
place. -/
theorem C10_hostname_unmodified (env : GuestEnv) (sbid id : String) (spec : OCISpec)
    (h : spec.Hostname ≠ "") :
    setupWorkloadContainerSpec env sbid id spec =
      (some ("workload container must not change hostname: " ++ spec.Hostname), spec) := by
  simp [setupWorkloadContainerSpec, h]

/-- C10 at a concrete input. -/
theorem C10_witness :
    setupWorkloadContainerSpec envC10 "sb" "c1" specC10 =
      (some ("workload container must not change hostname: " ++ "evil-host"), specC10) :=
  C10_hostname_unmodified envC10 "sb" "c1" specC10 (by decide)

end HcsShim
